import Mathlib

/-!
Shallow embedding of the 1sol-protocol JavaScript client SDK
(src/js/src/onesol-protocol.ts and src/js/src/index.ts, with the
earlier revisions concatenated in the same files) together with proofs
of its specification claims.

Buffers are modelled as `List Nat` of byte values, machine integers as
`Nat`, thrown JavaScript exceptions as `Except String`, and the
asynchronous RPC account fetches as explicit optional inputs.
-/

namespace OneSol

/-! ### Byte-level model of `Numberu64` (bn.js plus the class methods)

`BN.prototype.toArray()` produces the minimal big-endian byte array of a
nonnegative integer, with `[0]` for zero.  We model the digit extraction
little-endian first (`leBytes`), with fuel to keep the definition
structurally recursive, and reverse it. -/

/-- Fueled little-endian base-256 digit extraction: `leBytesF fuel x` is the
minimal little-endian byte list of `x` provided `fuel ≥ x`. -/
def leBytesF : Nat → Nat → List Nat
  | 0, _ => []
  | fuel + 1, x => if x = 0 then [] else x % 256 :: leBytesF fuel (x / 256)

/-- Minimal little-endian byte list of `x` (empty for `0`). -/
def leBytes (x : Nat) : List Nat := leBytesF (x + 1) x

/-- Big-endian fold of a byte list: the integer it denotes. -/
def beFold (l : List Nat) : Nat := l.foldl (fun acc d => acc * 256 + d) 0

/-- The 8-byte little-endian encoding of `x`: byte `i` is `x / 256 ^ i % 256`. -/
def leEncode8 (x : Nat) : List Nat := (List.range 8).map fun i => x / 256 ^ i % 256

namespace Numberu64

/-- `BN.prototype.toArray()`: minimal big-endian byte array, `[0]` for zero. -/
def toArray (x : Nat) : List Nat := if x = 0 then [0] else (leBytes x).reverse

/-- `Numberu64.prototype.toBuffer()`: reverse the big-endian array; return it
if it is exactly 8 bytes, zero-pad at the high end if shorter, and throw
`Numberu64 too large` otherwise. -/
def toBuffer (x : Nat) : Except String (List Nat) :=
  let b := (toArray x).reverse
  if b.length = 8 then .ok b
  else if b.length < 8 then .ok (b ++ List.replicate (8 - b.length) 0)
  else .error "Numberu64 too large"

/-- `Numberu64.fromBuffer`: demand exactly 8 bytes, reverse them and read the
result as a big-endian number (the hex string round trip in the source). -/
def fromBuffer (b : List Nat) : Except String Nat :=
  if b.length = 8 then .ok (beFold b.reverse)
  else .error ("Invalid buffer length: " ++ toString b.length)

end Numberu64

/-! ### Arithmetic facts about the byte codec -/

theorem leBytesF_zero (fuel : Nat) : leBytesF fuel 0 = [] := by
  cases fuel <;> simp [leBytesF]

theorem leBytesF_congr :
    ∀ f₁ f₂ x : Nat, x ≤ f₁ → x ≤ f₂ → leBytesF f₁ x = leBytesF f₂ x := by
  intro f₁
  induction f₁ with
  | zero =>
    intro f₂ x h₁ _
    interval_cases x
    simp [leBytesF_zero]
  | succ f ih =>
    intro f₂ x h₁ h₂
    by_cases hx : x = 0
    · simp [hx, leBytesF_zero]
    · obtain ⟨f', rfl⟩ : ∃ f', f₂ = f' + 1 := by
        cases f₂ with
        | zero => omega
        | succ f' => exact ⟨f', rfl⟩
      have hdiv : x / 256 < x := Nat.div_lt_self (Nat.pos_of_ne_zero hx) (by norm_num)
      simp only [leBytesF, if_neg hx]
      rw [ih f' (x / 256) (by omega) (by omega)]

theorem leBytes_eq (x : Nat) :
    leBytes x = if x = 0 then [] else x % 256 :: leBytes (x / 256) := by
  by_cases hx : x = 0
  · simp [hx, leBytes, leBytesF_zero]
  · have hdiv : x / 256 < x := Nat.div_lt_self (Nat.pos_of_ne_zero hx) (by norm_num)
    have h1 : leBytesF (x + 1) x = x % 256 :: leBytesF x (x / 256) := by
      rw [leBytesF, if_neg hx]
    rw [leBytes, h1, if_neg hx, leBytes]
    congr 1
    exact leBytesF_congr x (x / 256 + 1) (x / 256) (by omega) (by omega)

theorem leBytes_zero : leBytes 0 = [] := by simp [leBytes_eq]

/-- The padded little-endian digits of `x < 256 ^ k` are exactly the first `k`
base-256 digits of `x`. -/
theorem leBytes_pad (k : Nat) :
    ∀ x : Nat, x < 256 ^ k →
      leBytes x ++ List.replicate (k - (leBytes x).length) 0 =
        (List.range k).map (fun i => x / 256 ^ i % 256) := by
  induction k with
  | zero =>
    intro x hx
    interval_cases x
    simp [leBytes_zero]
  | succ k ih =>
    intro x hx
    by_cases hx0 : x = 0
    · subst hx0
      simp [leBytes_zero, List.map_const']
    · rw [leBytes_eq, if_neg hx0]
      have hlt : x / 256 < 256 ^ k := by
        rw [Nat.div_lt_iff_lt_mul (by norm_num : 0 < 256)]
        calc x < 256 ^ (k + 1) := hx
          _ = 256 ^ k * 256 := pow_succ 256 k
      have hrange : (List.range (k + 1)).map (fun i => x / 256 ^ i % 256) =
          x % 256 :: (List.range k).map (fun i => (x / 256) / 256 ^ i % 256) := by
        rw [List.range_succ_eq_map, List.map_cons, List.map_map]
        congr 1
        · simp
        · refine List.map_congr_left ?_
          intro i _
          show x / 256 ^ (i + 1) % 256 = x / 256 / 256 ^ i % 256
          rw [Nat.div_div_eq_div_mul, ← pow_succ']
      rw [hrange, ← ih (x / 256) hlt]
      simp [Nat.succ_sub_succ]

/-- If the little-endian digit list of `x` fits in `k` bytes then `x < 256 ^ k`. -/
theorem lt_of_leBytes_length_le (k : Nat) :
    ∀ x : Nat, (leBytes x).length ≤ k → x < 256 ^ k := by
  induction k with
  | zero =>
    intro x hx
    have hnil : leBytes x = [] := List.eq_nil_of_length_eq_zero (by omega)
    by_contra h
    have hx0 : x ≠ 0 := by
      intro h0
      exact h (by simp [h0])
    rw [leBytes_eq, if_neg hx0] at hnil
    simp at hnil
  | succ k ih =>
    intro x hx
    by_cases hx0 : x = 0
    · subst hx0; positivity
    · rw [leBytes_eq, if_neg hx0] at hx
      simp only [List.length_cons] at hx
      have h1 : x / 256 < 256 ^ k := ih (x / 256) (by omega)
      have h2 : 256 * (x / 256) + x % 256 = x := Nat.div_add_mod x 256
      have h3 : x % 256 < 256 := Nat.mod_lt _ (by norm_num)
      have h4 : 256 ^ (k + 1) = 256 ^ k * 256 := pow_succ 256 k
      omega

/-- Conversely, `x < 256 ^ k` bounds the length of the digit list. -/
theorem leBytes_length_le (k : Nat) (x : Nat) (hx : x < 256 ^ k) :
    (leBytes x).length ≤ k := by
  have h := congrArg List.length (leBytes_pad k x hx)
  simp only [List.length_append, List.length_replicate, List.length_map,
    List.length_range] at h
  omega

theorem beFold_append (l : List Nat) (d : Nat) :
    beFold (l ++ [d]) = beFold l * 256 + d := by
  simp [beFold, List.foldl_append]

/-- Reading the first `k` base-256 digits of `x < 256 ^ k` back big-endian
recovers `x`. -/
theorem beFold_digits (k : Nat) :
    ∀ x : Nat, x < 256 ^ k →
      beFold (((List.range k).map (fun i => x / 256 ^ i % 256)).reverse) = x := by
  induction k with
  | zero =>
    intro x hx
    interval_cases x
    simp [beFold]
  | succ k ih =>
    intro x hx
    have hlt : x / 256 < 256 ^ k := by
      rw [Nat.div_lt_iff_lt_mul (by norm_num : 0 < 256)]
      calc x < 256 ^ (k + 1) := hx
        _ = 256 ^ k * 256 := pow_succ 256 k
    have hrange : (List.range (k + 1)).map (fun i => x / 256 ^ i % 256) =
        x % 256 :: (List.range k).map (fun i => (x / 256) / 256 ^ i % 256) := by
      rw [List.range_succ_eq_map, List.map_cons, List.map_map]
      congr 1
      · simp
      · refine List.map_congr_left ?_
        intro i _
        show x / 256 ^ (i + 1) % 256 = x / 256 / 256 ^ i % 256
        rw [Nat.div_div_eq_div_mul, ← pow_succ']
    rw [hrange, List.reverse_cons, beFold_append, ih (x / 256) hlt]
    omega

theorem pow_256_8 : (256 : Nat) ^ 8 = 2 ^ 64 := by norm_num

/-- For a 64-bit value, `toBuffer` succeeds and returns the 8-byte
little-endian encoding. -/
theorem toBuffer_eq (x : Nat) (hx : x < 2 ^ 64) :
    Numberu64.toBuffer x = .ok (leEncode8 x) := by
  have hx' : x < 256 ^ 8 := by rw [pow_256_8]; exact hx
  by_cases hx0 : x = 0
  · subst hx0
    rfl
  · have hrev : (Numberu64.toArray x).reverse = leBytes x := by
      simp [Numberu64.toArray, hx0]
    have hpad := leBytes_pad 8 x hx'
    have hlen : (leBytes x).length ≤ 8 := leBytes_length_le 8 x hx'
    rw [Numberu64.toBuffer]
    simp only [hrev]
    by_cases h8 : (leBytes x).length = 8
    · rw [if_pos h8]
      have : (8 : Nat) - (leBytes x).length = 0 := by omega
      rw [this, List.replicate_zero, List.append_nil] at hpad
      rw [hpad]; rfl
    · rw [if_neg h8, if_pos (by omega), hpad]; rfl

/-- For a value of 2^64 or more, `toBuffer` throws `Numberu64 too large`. -/
theorem toBuffer_overflow (x : Nat) (hx : 2 ^ 64 ≤ x) :
    Numberu64.toBuffer x = .error "Numberu64 too large" := by
  have hx0 : x ≠ 0 := by
    intro h; subst h; simp at hx
  have hrev : (Numberu64.toArray x).reverse = leBytes x := by
    simp [Numberu64.toArray, hx0]
  have hlen : ¬ (leBytes x).length ≤ 8 := by
    intro h
    have := lt_of_leBytes_length_le 8 x h
    rw [pow_256_8] at this
    omega
  rw [Numberu64.toBuffer]
  simp only [hrev]
  rw [if_neg (by omega), if_neg (by omega)]

/-- `fromBuffer` decodes the 8-byte little-endian encoding back to the value. -/
theorem fromBuffer_leEncode8 (x : Nat) (hx : x < 2 ^ 64) :
    Numberu64.fromBuffer (leEncode8 x) = .ok x := by
  have hx' : x < 256 ^ 8 := by rw [pow_256_8]; exact hx
  have hlen : (leEncode8 x).length = 8 := by simp [leEncode8]
  rw [Numberu64.fromBuffer, if_pos hlen, leEncode8, beFold_digits 8 x hx']

/-! ### Solana account model

Addresses are opaque 32-byte values; we model ordinary addresses by a tag
and keep program-derived addresses (`PublicKey.createProgramAddress` with the
seed pattern `[address, [nonce]]` used throughout this SDK) symbolic. -/

inductive PublicKey where
  | raw : Nat → PublicKey
  | programAddress : PublicKey → Nat → PublicKey → PublicKey
deriving DecidableEq, Repr

/-- String rendering of a key, standing in for `toBase58`/template-literal
interpolation in error messages. -/
def pkStr : PublicKey → String
  | .raw n => toString n
  | .programAddress base nonce prog =>
      "pda:" ++ pkStr base ++ ":" ++ toString nonce ++ ":" ++ pkStr prog

/-- `SYSVAR_CLOCK_PUBKEY` from `@solana/web3.js`. -/
def SYSVAR_CLOCK_PUBKEY : PublicKey := .raw 101

/-- `SYSVAR_RENT_PUBKEY` from `@solana/web3.js`. -/
def SYSVAR_RENT_PUBKEY : PublicKey := .raw 102

structure AccountMeta where
  pubkey : PublicKey
  isSigner : Bool
  isWritable : Bool
deriving DecidableEq, Repr

structure TransactionInstruction where
  keys : List AccountMeta
  programId : PublicKey
  data : List Nat
deriving DecidableEq, Repr

/-- The part of a fetched account this SDK reads: its owner and its data.
The data is kept at the type the caller decodes it to. -/
structure AccountInfo (α : Type) where
  owner : PublicKey
  data : α
deriving DecidableEq, Repr

/-- `loadAccount(connection, address, programId)`: the RPC fetch result is the
explicit `accountInfo` input; `null` becomes `none`. -/
def loadAccount {α : Type} (accountInfo : Option (AccountInfo α))
    (programId : PublicKey) : Except String α :=
  match accountInfo with
  | none => .error "Failed to find account"
  | some info =>
      if info.owner = programId then .ok info.data
      else .error ("Invalid owner: " ++ pkStr info.owner)

/-! ### `onesol-protocol.ts`: venue info classes and their key lists -/

structure TokenSwapInfo where
  programId : PublicKey
  swapInfo : PublicKey
  authority : PublicKey
  tokenAccountA : PublicKey
  tokenAccountB : PublicKey
  mintA : PublicKey
  mintB : PublicKey
  poolMint : PublicKey
  feeAccount : PublicKey
deriving DecidableEq, Repr

def TokenSwapInfo.toKeys (s : TokenSwapInfo) : List AccountMeta :=
  [ ⟨s.swapInfo, false, false⟩,
    ⟨s.authority, false, false⟩,
    ⟨s.tokenAccountA, false, true⟩,
    ⟨s.tokenAccountB, false, true⟩,
    ⟨s.poolMint, false, true⟩,
    ⟨s.feeAccount, false, true⟩,
    ⟨s.programId, false, false⟩ ]

structure SerumDexMarketInfo where
  market : PublicKey
  requestQueue : PublicKey
  eventQueue : PublicKey
  bids : PublicKey
  asks : PublicKey
  coinVault : PublicKey
  pcVault : PublicKey
  vaultSigner : PublicKey
  openOrders : PublicKey
  programId : PublicKey
deriving DecidableEq, Repr

def SerumDexMarketInfo.toKeys (s : SerumDexMarketInfo) : List AccountMeta :=
  [ ⟨s.market, false, true⟩,
    ⟨s.requestQueue, false, true⟩,
    ⟨s.eventQueue, false, true⟩,
    ⟨s.bids, false, true⟩,
    ⟨s.asks, false, true⟩,
    ⟨s.coinVault, false, true⟩,
    ⟨s.pcVault, false, true⟩,
    ⟨s.vaultSigner, false, false⟩,
    ⟨s.openOrders, false, true⟩,
    ⟨SYSVAR_RENT_PUBKEY, false, false⟩,
    ⟨s.programId, false, false⟩ ]

structure SaberStableSwapInfo where
  programId : PublicKey
  swapInfo : PublicKey
  authority : PublicKey
  tokenAccountA : PublicKey
  mintA : PublicKey
  adminFeeAccountA : PublicKey
  tokenAccountB : PublicKey
  mintB : PublicKey
  adminFeeAccountB : PublicKey
deriving DecidableEq, Repr

def SaberStableSwapInfo.toKeys (s : SaberStableSwapInfo)
    (sourceMint : PublicKey) : List AccountMeta :=
  [ ⟨s.swapInfo, false, false⟩,
    ⟨s.authority, false, false⟩,
    ⟨s.tokenAccountA, false, true⟩,
    ⟨s.tokenAccountB, false, true⟩ ]
  ++ (if sourceMint = s.mintA then [(⟨s.adminFeeAccountB, false, true⟩ : AccountMeta)]
      else [(⟨s.adminFeeAccountA, false, true⟩ : AccountMeta)])
  ++ [ ⟨SYSVAR_CLOCK_PUBKEY, false, false⟩,
       ⟨s.programId, false, false⟩ ]

structure RaydiumAmmInfo where
  programId : PublicKey
  ammInfo : PublicKey
  authority : PublicKey
  ammOpenOrders : PublicKey
  ammTargetOrders : PublicKey
  poolCoinTokenAccount : PublicKey
  poolPcTokenAccount : PublicKey
  serumProgramId : PublicKey
  serumMarket : PublicKey
  serumBids : PublicKey
  serumAsks : PublicKey
  serumEventQueue : PublicKey
  serumCoinVaultAccount : PublicKey
  serumPcVaultAccount : PublicKey
  serumVaultSigner : PublicKey
deriving DecidableEq, Repr

def RaydiumAmmInfo.toKeys (s : RaydiumAmmInfo) : List AccountMeta :=
  [ ⟨s.ammInfo, false, true⟩,
    ⟨s.authority, false, false⟩,
    ⟨s.ammOpenOrders, false, true⟩,
    ⟨s.ammTargetOrders, false, true⟩,
    ⟨s.poolCoinTokenAccount, false, true⟩,
    ⟨s.poolPcTokenAccount, false, true⟩,
    ⟨s.serumProgramId, false, false⟩,
    ⟨s.serumMarket, false, true⟩,
    ⟨s.serumBids, false, true⟩,
    ⟨s.serumAsks, false, true⟩,
    ⟨s.serumEventQueue, false, true⟩,
    ⟨s.serumCoinVaultAccount, false, true⟩,
    ⟨s.serumPcVaultAccount, false, true⟩,
    ⟨s.serumVaultSigner, false, false⟩,
    ⟨s.programId, false, false⟩ ]

/-! ### `onesol-protocol.ts`: the `OneSolProtocol` instruction makers

Each maker builds its data buffer (a one-byte discriminant followed by the
`Numberu64` amounts, in layout order) and its key list.  A `Numberu64`
overflow surfaces as the thrown error, exactly as `toBuffer` throws in the
source; the match rows mirror the JavaScript evaluation order. -/

namespace OneSolProtocol

/-- The instruction pushed by `createSwapInfo` (discriminant 10); the freshly
generated `swapInfoAccount` keypair is the first argument. -/
def createSwapInfoInstruction (swapInfoAccount owner programId : PublicKey) :
    TransactionInstruction :=
  { keys := [⟨swapInfoAccount, true, true⟩, ⟨owner, true, false⟩],
    programId := programId,
    data := [10] }

/-- The instruction pushed by `setupSwapInfo` (discriminant 11). -/
def setupSwapInfoInstruction (swapInfo tokenAccount programId : PublicKey) :
    TransactionInstruction :=
  { keys := [⟨swapInfo, false, true⟩, ⟨tokenAccount, false, true⟩],
    programId := programId,
    data := [11] }

def makeSwapByTokenSwapInstruction
    (sourceTokenKey sourceMint destinationTokenKey destinationMint
      transferAuthority tokenProgramId feeTokenAccount : PublicKey)
    (splTokenSwapInfo : TokenSwapInfo)
    (amountIn expectAmountOut minimumAmountOut : Nat)
    (programId : PublicKey) : Except String TransactionInstruction :=
  match Numberu64.toBuffer amountIn, Numberu64.toBuffer expectAmountOut,
      Numberu64.toBuffer minimumAmountOut with
  | .error e, _, _ => .error e
  | _, .error e, _ => .error e
  | _, _, .error e => .error e
  | .ok aIn, .ok eOut, .ok mOut =>
    .ok { keys := [ ⟨sourceTokenKey, false, true⟩,
                    ⟨destinationTokenKey, false, true⟩,
                    ⟨transferAuthority, true, false⟩,
                    ⟨tokenProgramId, false, false⟩,
                    ⟨feeTokenAccount, false, true⟩ ] ++ splTokenSwapInfo.toKeys,
          programId := programId,
          data := 3 :: (aIn ++ eOut ++ mOut) }

def makeSwapInByTokenSwapInstruction
    (sourceTokenKey sourceMint destinationTokenKey destinationMint
      transferAuthority tokenProgramId swapInfo : PublicKey)
    (splTokenSwapInfo : TokenSwapInfo)
    (amountIn : Nat)
    (programId : PublicKey) : Except String TransactionInstruction :=
  match Numberu64.toBuffer amountIn with
  | .error e => .error e
  | .ok aIn =>
    .ok { keys := [ ⟨sourceTokenKey, false, true⟩,
                    ⟨destinationTokenKey, false, true⟩,
                    ⟨transferAuthority, true, false⟩,
                    ⟨swapInfo, false, true⟩,
                    ⟨tokenProgramId, false, false⟩ ] ++ splTokenSwapInfo.toKeys,
          programId := programId,
          data := 12 :: aIn }

def makeSwapOutByTokenSwapInstruction
    (sourceTokenKey sourceMint destinationTokenKey destinationMint
      transferAuthority tokenProgramId feeTokenAccount swapInfo : PublicKey)
    (splTokenSwapInfo : TokenSwapInfo)
    (expectAmountOut minimumAmountOut : Nat)
    (programId : PublicKey) : Except String TransactionInstruction :=
  match Numberu64.toBuffer expectAmountOut, Numberu64.toBuffer minimumAmountOut with
  | .error e, _ => .error e
  | _, .error e => .error e
  | .ok eOut, .ok mOut =>
    .ok { keys := [ ⟨sourceTokenKey, false, true⟩,
                    ⟨destinationTokenKey, false, true⟩,
                    ⟨transferAuthority, true, false⟩,
                    ⟨swapInfo, false, true⟩,
                    ⟨tokenProgramId, false, false⟩,
                    ⟨feeTokenAccount, false, true⟩ ] ++ splTokenSwapInfo.toKeys,
          programId := programId,
          data := 13 :: (eOut ++ mOut) }

def makeSwapBySaberStableSwapInstruction
    (sourceTokenKey sourceMint destinationTokenKey destinationMint
      transferAuthority tokenProgramId feeTokenAccount : PublicKey)
    (stableSwapInfo : SaberStableSwapInfo)
    (amountIn expectAmountOut minimumAmountOut : Nat)
    (programId : PublicKey) : Except String TransactionInstruction :=
  match Numberu64.toBuffer amountIn, Numberu64.toBuffer expectAmountOut,
      Numberu64.toBuffer minimumAmountOut with
  | .error e, _, _ => .error e
  | _, .error e, _ => .error e
  | _, _, .error e => .error e
  | .ok aIn, .ok eOut, .ok mOut =>
    .ok { keys := [ ⟨sourceTokenKey, false, true⟩,
                    ⟨destinationTokenKey, false, true⟩,
                    ⟨transferAuthority, true, false⟩,
                    ⟨tokenProgramId, false, false⟩,
                    ⟨feeTokenAccount, false, true⟩ ]
                  ++ stableSwapInfo.toKeys sourceMint,
          programId := programId,
          data := 6 :: (aIn ++ eOut ++ mOut) }

def makeSwapInBySaberStableSwapInstruction
    (sourceTokenKey sourceMint destinationTokenKey destinationMint
      transferAuthority tokenProgramId swapInfo : PublicKey)
    (stableSwapInfo : SaberStableSwapInfo)
    (amountIn : Nat)
    (programId : PublicKey) : Except String TransactionInstruction :=
  match Numberu64.toBuffer amountIn with
  | .error e => .error e
  | .ok aIn =>
    .ok { keys := [ ⟨sourceTokenKey, false, true⟩,
                    ⟨destinationTokenKey, false, true⟩,
                    ⟨transferAuthority, true, false⟩,
                    ⟨swapInfo, false, true⟩,
                    ⟨tokenProgramId, false, false⟩ ]
                  ++ stableSwapInfo.toKeys sourceMint,
          programId := programId,
          data := 16 :: aIn }

def makeSwapOutBySaberStableSwapInstruction
    (sourceTokenKey sourceMint destinationTokenKey destinationMint
      transferAuthority tokenProgramId swapInfo feeTokenAccount : PublicKey)
    (stableSwapInfo : SaberStableSwapInfo)
    (expectAmountOut minimumAmountOut : Nat)
    (programId : PublicKey) : Except String TransactionInstruction :=
  match Numberu64.toBuffer expectAmountOut, Numberu64.toBuffer minimumAmountOut with
  | .error e, _ => .error e
  | _, .error e => .error e
  | .ok eOut, .ok mOut =>
    .ok { keys := [ ⟨sourceTokenKey, false, true⟩,
                    ⟨destinationTokenKey, false, true⟩,
                    ⟨transferAuthority, true, false⟩,
                    ⟨swapInfo, false, true⟩,
                    ⟨tokenProgramId, false, false⟩,
                    ⟨feeTokenAccount, false, true⟩ ]
                  ++ stableSwapInfo.toKeys sourceMint,
          programId := programId,
          data := 17 :: (eOut ++ mOut) }

def makeSwapByRaydiumSwapInstruction
    (sourceTokenKey sourceMint destinationTokenKey destinationMint
      transferAuthority tokenProgramId feeTokenAccount : PublicKey)
    (raydiumInfo : RaydiumAmmInfo)
    (amountIn expectAmountOut minimumAmountOut : Nat)
    (programId : PublicKey) : Except String TransactionInstruction :=
  match Numberu64.toBuffer amountIn, Numberu64.toBuffer expectAmountOut,
      Numberu64.toBuffer minimumAmountOut with
  | .error e, _, _ => .error e
  | _, .error e, _ => .error e
  | _, _, .error e => .error e
  | .ok aIn, .ok eOut, .ok mOut =>
    .ok { keys := [ ⟨sourceTokenKey, false, true⟩,
                    ⟨destinationTokenKey, false, true⟩,
                    ⟨transferAuthority, true, false⟩,
                    ⟨tokenProgramId, false, false⟩,
                    ⟨feeTokenAccount, false, true⟩ ] ++ raydiumInfo.toKeys,
          programId := programId,
          data := 9 :: (aIn ++ eOut ++ mOut) }

def makeSwapInByRaydiumSwapInstruction
    (sourceTokenKey sourceMint destinationTokenKey destinationMint
      transferAuthority swapInfo tokenProgramId : PublicKey)
    (raydiumInfo : RaydiumAmmInfo)
    (amountIn : Nat)
    (programId : PublicKey) : Except String TransactionInstruction :=
  match Numberu64.toBuffer amountIn with
  | .error e => .error e
  | .ok aIn =>
    .ok { keys := [ ⟨sourceTokenKey, false, true⟩,
                    ⟨destinationTokenKey, false, true⟩,
                    ⟨transferAuthority, true, false⟩,
                    ⟨swapInfo, true, true⟩,
                    ⟨tokenProgramId, false, false⟩ ] ++ raydiumInfo.toKeys,
          programId := programId,
          data := 18 :: aIn }

def makeSwapOutByRaydiumSwapInstruction
    (sourceTokenKey sourceMint destinationTokenKey destinationMint
      transferAuthority tokenProgramId feeTokenAccount swapInfo : PublicKey)
    (raydiumInfo : RaydiumAmmInfo)
    (expectAmountOut minimumAmountOut : Nat)
    (programId : PublicKey) : Except String TransactionInstruction :=
  match Numberu64.toBuffer expectAmountOut, Numberu64.toBuffer minimumAmountOut with
  | .error e, _ => .error e
  | _, .error e => .error e
  | .ok eOut, .ok mOut =>
    .ok { keys := [ ⟨sourceTokenKey, false, true⟩,
                    ⟨destinationTokenKey, false, true⟩,
                    ⟨transferAuthority, true, false⟩,
                    ⟨swapInfo, true, true⟩,
                    ⟨tokenProgramId, false, false⟩,
                    ⟨feeTokenAccount, false, true⟩ ] ++ raydiumInfo.toKeys,
          programId := programId,
          data := 19 :: (eOut ++ mOut) }

def makeSwapBySerumDexInstruction
    (sourceTokenKey sourceMintKey destinationTokenKey destinationMintKey
      feeTokenAccount transferAuthority tokenProgramId : PublicKey)
    (dexMarketInfo : SerumDexMarketInfo)
    (amountIn expectAmountOut minimumAmountOut : Nat)
    (programId : PublicKey) : Except String TransactionInstruction :=
  match Numberu64.toBuffer amountIn, Numberu64.toBuffer expectAmountOut,
      Numberu64.toBuffer minimumAmountOut with
  | .error e, _, _ => .error e
  | _, .error e, _ => .error e
  | _, _, .error e => .error e
  | .ok aIn, .ok eOut, .ok mOut =>
    .ok { keys := [ ⟨sourceTokenKey, false, true⟩,
                    ⟨destinationTokenKey, false, true⟩,
                    ⟨transferAuthority, true, false⟩,
                    ⟨tokenProgramId, false, false⟩,
                    ⟨feeTokenAccount, false, true⟩ ] ++ dexMarketInfo.toKeys,
          programId := programId,
          data := 4 :: (aIn ++ eOut ++ mOut) }

def makeSwapInBySerumDexInstruction
    (sourceTokenKey sourceMintKey destinationTokenKey destinationMintKey
      swapInfo transferAuthority tokenProgramId : PublicKey)
    (dexMarketInfo : SerumDexMarketInfo)
    (amountIn : Nat)
    (programId : PublicKey) : Except String TransactionInstruction :=
  match Numberu64.toBuffer amountIn with
  | .error e => .error e
  | .ok aIn =>
    .ok { keys := [ ⟨sourceTokenKey, false, true⟩,
                    ⟨destinationTokenKey, false, true⟩,
                    ⟨transferAuthority, true, false⟩,
                    ⟨swapInfo, true, true⟩,
                    ⟨tokenProgramId, false, false⟩ ] ++ dexMarketInfo.toKeys,
          programId := programId,
          data := 14 :: aIn }

def makeSwapOutBySerumDexInstruction
    (sourceTokenKey sourceMintKey destinationTokenKey destinationMintKey
      feeTokenAccount transferAuthority swapInfo tokenProgramId : PublicKey)
    (dexMarketInfo : SerumDexMarketInfo)
    (expectAmountOut minimumAmountOut : Nat)
    (programId : PublicKey) : Except String TransactionInstruction :=
  match Numberu64.toBuffer expectAmountOut, Numberu64.toBuffer minimumAmountOut with
  | .error e, _ => .error e
  | _, .error e => .error e
  | .ok eOut, .ok mOut =>
    .ok { keys := [ ⟨sourceTokenKey, false, true⟩,
                    ⟨destinationTokenKey, false, true⟩,
                    ⟨transferAuthority, true, false⟩,
                    ⟨swapInfo, true, true⟩,
                    ⟨tokenProgramId, false, false⟩,
                    ⟨feeTokenAccount, false, true⟩ ] ++ dexMarketInfo.toKeys,
          programId := programId,
          data := 15 :: (eOut ++ mOut) }

end OneSolProtocol

/-! ### `onesol-protocol.ts`: account loaders and `findSwapInfo` -/

/-- The fields of `TokenSwapLayout` (from `@solana/spl-token-swap`) that
`loadTokenSwapInfo` reads, as decoded from the fetched account data. -/
structure TokenSwapDecoded where
  isInitialized : Nat
  nonce : Nat
  tokenPool : PublicKey
  feeAccount : PublicKey
  tokenAccountA : PublicKey
  tokenAccountB : PublicKey
  mintA : PublicKey
  mintB : PublicKey
deriving DecidableEq, Repr

/-- `loadTokenSwapInfo`: fetch and decode a token-swap pool account, reject an
uninitialized pool, and package the decoded fields with the program-derived
authority.  The `hostFeeAccount` parameter is accepted and ignored, as in the
source. -/
def loadTokenSwapInfo (accountInfo : Option (AccountInfo TokenSwapDecoded))
    (address programId : PublicKey) (hostFeeAccount : Option PublicKey) :
    Except String TokenSwapInfo :=
  match loadAccount accountInfo programId with
  | .error e => .error e
  | .ok tokenSwapData =>
    if tokenSwapData.isInitialized = 0 then .error "Invalid token swap state"
    else
      .ok { programId := programId,
            swapInfo := address,
            authority := .programAddress address tokenSwapData.nonce programId,
            tokenAccountA := tokenSwapData.tokenAccountA,
            tokenAccountB := tokenSwapData.tokenAccountB,
            mintA := tokenSwapData.mintA,
            mintB := tokenSwapData.mintB,
            poolMint := tokenSwapData.tokenPool,
            feeAccount := tokenSwapData.feeAccount }

/-- The fields of `StableSwapLayout` (from `@saberhq/stableswap-sdk`) that
`loadSaberStableSwap` reads. -/
structure StableSwapDecoded where
  isInitialized : Nat
  isPaused : Nat
  nonce : Nat
  tokenAccountA : PublicKey
  mintA : PublicKey
  adminFeeAccountA : PublicKey
  tokenAccountB : PublicKey
  mintB : PublicKey
  adminFeeAccountB : PublicKey
deriving DecidableEq, Repr

/-- `loadSaberStableSwap`: rejects the account unless it is initialized and
not paused (`!isInitialized || isPaused` in the source). -/
def loadSaberStableSwap (accountInfo : Option (AccountInfo StableSwapDecoded))
    (address programId : PublicKey) : Except String SaberStableSwapInfo :=
  match loadAccount accountInfo programId with
  | .error e => .error e
  | .ok stableSwapData =>
    if stableSwapData.isInitialized = 0 ∨ stableSwapData.isPaused ≠ 0 then
      .error "Invalid token swap state"
    else
      .ok { programId := programId,
            swapInfo := address,
            authority := .programAddress address stableSwapData.nonce programId,
            tokenAccountA := stableSwapData.tokenAccountA,
            mintA := stableSwapData.mintA,
            adminFeeAccountA := stableSwapData.adminFeeAccountA,
            tokenAccountB := stableSwapData.tokenAccountB,
            mintB := stableSwapData.mintB,
            adminFeeAccountB := stableSwapData.adminFeeAccountB }

/-- The fields of `SwapInfoLayout` as decoded by `findSwapInfo`.
`tokenLatestAmount` is a raw 8-byte blob in the layout. -/
structure SwapInfoDecoded where
  isInitialized : Nat
  status : Nat
  tokenLatestAmount : List Nat
  owner : PublicKey
  tokenAccountOption : Nat
  tokenAccount : PublicKey
deriving DecidableEq, Repr

/-- One element of a `getProgramAccounts` response. -/
structure ProgramAccount where
  pubkey : PublicKey
  account : AccountInfo SwapInfoDecoded
deriving DecidableEq, Repr

/-- The `SwapInfo` record returned by `findSwapInfo`. -/
structure SwapInfo where
  pubkey : PublicKey
  programId : PublicKey
  isInitialized : Nat
  status : Nat
  tokenLatestAmount : List Nat
  owner : PublicKey
  tokenAccount : Option PublicKey
deriving DecidableEq, Repr

/-- `findSwapInfo`: the RPC already applied the data-size and owner filters,
so the filtered account list is the explicit input; the source destructures
its first element and returns `null` when there is none. -/
def findSwapInfo (accounts : List ProgramAccount) : Option SwapInfo :=
  match accounts.head? with
  | none => none
  | some item =>
    let decoded := item.account.data
    let tokenAccount :=
      if decoded.tokenAccountOption = 0 then none else some decoded.tokenAccount
    some { pubkey := item.pubkey,
           programId := item.account.owner,
           isInitialized := decoded.isInitialized,
           status := decoded.status,
           tokenLatestAmount := decoded.tokenLatestAmount,
           owner := decoded.owner,
           tokenAccount := tokenAccount }

/-! ### `index.ts`, middle revision: `AmmInfo` and the mint-validating maker -/

namespace IndexV2

/-- `AmmInfo`: a decoded aggregator account; `tokenMintA()` and friends read
the decoded fields. -/
structure AmmInfo where
  pubkey : PublicKey
  programId : PublicKey
  authority : PublicKey
  tokenAccountA : PublicKey
  tokenAccountB : PublicKey
  tokenMintA : PublicKey
  tokenMintB : PublicKey
deriving DecidableEq, Repr

def AmmInfo.toKeys (a : AmmInfo) : List AccountMeta :=
  [ ⟨a.pubkey, false, true⟩,
    ⟨a.authority, false, false⟩,
    ⟨a.tokenAccountA, false, true⟩,
    ⟨a.tokenAccountB, false, true⟩ ]

/-- The `TokenSwapInfo` of this revision carries an optional host-fee account that
`toKeys` appends when present. -/
structure TokenSwapInfo where
  programId : PublicKey
  swapInfo : PublicKey
  authority : PublicKey
  tokenAccountA : PublicKey
  tokenAccountB : PublicKey
  mintA : PublicKey
  mintB : PublicKey
  poolMint : PublicKey
  feeAccount : PublicKey
  hostFeeAccount : Option PublicKey
deriving DecidableEq, Repr

def TokenSwapInfo.toKeys (s : TokenSwapInfo) : List AccountMeta :=
  [ ⟨s.swapInfo, false, false⟩,
    ⟨s.authority, false, false⟩,
    ⟨s.tokenAccountA, false, true⟩,
    ⟨s.tokenAccountB, false, true⟩,
    ⟨s.poolMint, false, true⟩,
    ⟨s.feeAccount, false, true⟩,
    ⟨s.programId, false, false⟩ ]
  ++ (match s.hostFeeAccount with
      | some k => [(⟨k, false, true⟩ : AccountMeta)]
      | none => [])

/-- The middle-revision `makeSwapByTokenSwapInstruction`: it validates that
the source/destination mint pair matches the `AmmInfo` mints in one of the
two orientations before building the instruction (discriminant 3, with a
trailing `useFull` byte). -/
def makeSwapByTokenSwapInstruction
    (ammInfo : AmmInfo)
    (sourceTokenKey sourceMint destinationTokenKey destinationMint
      transferAuthority tokenProgramId : PublicKey)
    (splTokenSwapInfo : TokenSwapInfo)
    (amountIn expectAmountOut minimumAmountOut : Nat)
    (useFull : Bool) : Except String TransactionInstruction :=
  if ¬ ((sourceMint = ammInfo.tokenMintA ∧ destinationMint = ammInfo.tokenMintB) ∨
        (sourceMint = ammInfo.tokenMintB ∧ destinationMint = ammInfo.tokenMintA))
  then .error ("ammInfo(" ++ pkStr ammInfo.pubkey ++ ") error")
  else
    match Numberu64.toBuffer amountIn, Numberu64.toBuffer expectAmountOut,
        Numberu64.toBuffer minimumAmountOut with
    | .error e, _, _ => .error e
    | _, .error e, _ => .error e
    | _, _, .error e => .error e
    | .ok aIn, .ok eOut, .ok mOut =>
      .ok { keys := [ ⟨sourceTokenKey, false, true⟩,
                      ⟨destinationTokenKey, false, true⟩,
                      ⟨transferAuthority, true, false⟩,
                      ⟨tokenProgramId, false, false⟩ ]
                    ++ ammInfo.toKeys ++ splTokenSwapInfo.toKeys,
            programId := ammInfo.programId,
            data := 3 :: (aIn ++ eOut ++ mOut
                      ++ [if useFull then 1 else 0]) }

end IndexV2

namespace IndexV1

/-- The data buffer built by `swapInstruction` in the earliest `index.ts`
revision: discriminant 1, the two amounts, and the dex-configuration count
byte. -/
def swapInstructionData (amountIn minimumAmountOut dexesConfig : Nat) :
    Except String (List Nat) :=
  match Numberu64.toBuffer amountIn, Numberu64.toBuffer minimumAmountOut with
  | .error e, _ => .error e
  | _, .error e => .error e
  | .ok aIn, .ok mOut => .ok (1 :: (aIn ++ mOut ++ [dexesConfig]))

end IndexV1

/-- Every instruction discriminant literal written by any
instruction-construction helper across the file revisions of the repository:
10 and 11 from `createSwapInfo`/`setupSwapInfo`, 3/4/6/9 from the four
full-swap makers, 12/14/16/18 and 13/15/17/19 from the swap-in/swap-out
variants (all in `onesol-protocol.ts`); 0-5 from the compiled
`dist/index.js` revision, 1 from the early `swapInstruction`, 0 and 1 from
the `createInitSwapInstruction`/`swapInstruction` pair of the oldest
`index.ts` revision, and 3/4/5/6/9 from the middle `index.ts` revision. -/
def allRevisionDiscriminants : List Nat :=
  [0, 1, 2, 3, 4, 5, 6, 9, 10, 11, 12, 13, 14, 15, 16, 17, 18, 19]

/-! ## Claims -/

/-- C1: for every `x < 2 ^ 64`, decoding the 8-byte buffer produced by
`Numberu64.toBuffer` with `Numberu64.fromBuffer` yields `x` again, and
`fromBuffer` rejects every buffer whose length is not exactly 8. -/
theorem numberu64_roundtrip :
    (∀ x : Nat, x < 2 ^ 64 →
        (Numberu64.toBuffer x).bind Numberu64.fromBuffer = .ok x) ∧
    (∀ b : List Nat, b.length ≠ 8 →
        Numberu64.fromBuffer b =
          .error ("Invalid buffer length: " ++ toString b.length)) := by
  constructor
  · intro x hx
    rw [toBuffer_eq x hx]
    exact fromBuffer_leEncode8 x hx
  · intro b hb
    rw [Numberu64.fromBuffer, if_neg hb]

theorem numberu64_roundtrip_witness :
    (Numberu64.toBuffer 123456789).bind Numberu64.fromBuffer = .ok 123456789 ∧
    Numberu64.fromBuffer [1, 2, 3] = .error "Invalid buffer length: 3" :=
  ⟨numberu64_roundtrip.1 123456789 (by norm_num),
   numberu64_roundtrip.2 [1, 2, 3] (by decide)⟩

/-- C2: for every `x < 2 ^ 64`, `Numberu64.toBuffer` succeeds with the 8-byte
little-endian encoding of `x` (so the `Numberu64 too large` assertion never
fires there), and it throws for every `x ≥ 2 ^ 64`. -/
theorem numberu64_toBuffer_le_encoding :
    (∀ x : Nat, x < 2 ^ 64 → Numberu64.toBuffer x = .ok (leEncode8 x)) ∧
    (∀ x : Nat, (leEncode8 x).length = 8) ∧
    (∀ x : Nat, 2 ^ 64 ≤ x →
        Numberu64.toBuffer x = .error "Numberu64 too large") :=
  ⟨toBuffer_eq, fun x => by simp [leEncode8], toBuffer_overflow⟩

theorem numberu64_toBuffer_le_encoding_witness :
    Numberu64.toBuffer 258 = .ok [2, 1, 0, 0, 0, 0, 0, 0] ∧
    Numberu64.toBuffer (2 ^ 64) = .error "Numberu64 too large" := by
  constructor
  · have h := numberu64_toBuffer_le_encoding.1 258 (by norm_num)
    rw [h]; rfl
  · exact numberu64_toBuffer_le_encoding.2.2 (2 ^ 64) le_rfl

/-- C3: `loadAccount` throws `Failed to find account` exactly when the fetch
returns nothing, throws an `Invalid owner` error exactly when the owner is
not the given program id, and otherwise returns the data buffer of the account. -/
theorem loadAccount_spec :
    (∀ programId : PublicKey,
        loadAccount (α := List Nat) none programId =
          .error "Failed to find account") ∧
    (∀ (info : AccountInfo (List Nat)) (programId : PublicKey),
        info.owner ≠ programId →
          loadAccount (some info) programId =
            .error ("Invalid owner: " ++ pkStr info.owner)) ∧
    (∀ (info : AccountInfo (List Nat)) (programId : PublicKey),
        info.owner = programId →
          loadAccount (some info) programId = .ok info.data) := by
  refine ⟨fun _ => rfl, ?_, ?_⟩
  · intro info pid h
    simp [loadAccount, h]
  · intro info pid h
    simp [loadAccount, h]

theorem loadAccount_spec_witness :
    loadAccount (some (⟨.raw 5, [9, 9]⟩ : AccountInfo (List Nat))) (.raw 7) =
      .error ("Invalid owner: " ++ pkStr (.raw 5)) ∧
    loadAccount (some (⟨.raw 7, [9, 9]⟩ : AccountInfo (List Nat))) (.raw 7) =
      .ok [9, 9] :=
  ⟨loadAccount_spec.2.1 ⟨.raw 5, [9, 9]⟩ (.raw 7) (by decide),
   loadAccount_spec.2.2 ⟨.raw 7, [9, 9]⟩ (.raw 7) rfl⟩

/-- C6: `SaberStableSwapInfo.toKeys` returns exactly 7 account references in
the order swap account, authority, token account A, token account B,
admin-fee account, clock sysvar, program id; the admin-fee slot is
`adminFeeAccountB` when the source mint equals mint A and `adminFeeAccountA`
in every other case; only the two token accounts and the admin-fee account
are writable, and no reference is a signer. -/
theorem saberStableSwap_toKeys_spec :
    ∀ (s : SaberStableSwapInfo) (sourceMint : PublicKey),
      (s.toKeys sourceMint).length = 7 ∧
      (s.toKeys sourceMint).map AccountMeta.pubkey =
        [s.swapInfo, s.authority, s.tokenAccountA, s.tokenAccountB,
         (if sourceMint = s.mintA then s.adminFeeAccountB else s.adminFeeAccountA),
         SYSVAR_CLOCK_PUBKEY, s.programId] ∧
      (s.toKeys sourceMint).map AccountMeta.isWritable =
        [false, false, true, true, true, false, false] ∧
      (s.toKeys sourceMint).map AccountMeta.isSigner =
        [false, false, false, false, false, false, false] := by
  intro s m
  by_cases h : m = s.mintA <;> simp [SaberStableSwapInfo.toKeys, h]

/-- C10: `findSwapInfo` returns `null` when the filtered program-account list
is empty; otherwise the `tokenAccount` field of the returned record is `null`
exactly when the decoded `tokenAccountOption` is 0, and is the decoded
`tokenAccount` key otherwise. -/
theorem findSwapInfo_spec :
    findSwapInfo [] = none ∧
    ∀ (item : ProgramAccount) (rest : List ProgramAccount),
      ∃ s, findSwapInfo (item :: rest) = some s ∧
        s.tokenAccount =
          (if item.account.data.tokenAccountOption = 0 then none
           else some item.account.data.tokenAccount) ∧
        (s.tokenAccount = none ↔ item.account.data.tokenAccountOption = 0) := by
  refine ⟨rfl, ?_⟩
  intro item rest
  refine ⟨_, rfl, rfl, ?_⟩
  by_cases h : item.account.data.tokenAccountOption = 0 <;>
    simp [findSwapInfo, h]

/-- C5: the key list of each full-swap maker is exactly the five-element head
source token (writable), destination token (writable), transfer authority
(signer, read-only), token program (read-only), fee token account (writable),
followed by exactly the `toKeys` list of the venue info object. -/
theorem fullSwap_keyLists :
    (∀ (sourceTokenKey sourceMint destinationTokenKey destinationMint
          transferAuthority tokenProgramId feeTokenAccount programId : PublicKey)
        (info : TokenSwapInfo) (amountIn expectAmountOut minimumAmountOut : Nat)
        (i : TransactionInstruction),
        OneSolProtocol.makeSwapByTokenSwapInstruction sourceTokenKey sourceMint
            destinationTokenKey destinationMint transferAuthority tokenProgramId
            feeTokenAccount info amountIn expectAmountOut minimumAmountOut
            programId = .ok i →
          i.keys = [ ⟨sourceTokenKey, false, true⟩,
                     ⟨destinationTokenKey, false, true⟩,
                     ⟨transferAuthority, true, false⟩,
                     ⟨tokenProgramId, false, false⟩,
                     ⟨feeTokenAccount, false, true⟩ ] ++ info.toKeys) ∧
    (∀ (sourceTokenKey sourceMint destinationTokenKey destinationMint
          transferAuthority tokenProgramId feeTokenAccount programId : PublicKey)
        (info : SaberStableSwapInfo) (amountIn expectAmountOut minimumAmountOut : Nat)
        (i : TransactionInstruction),
        OneSolProtocol.makeSwapBySaberStableSwapInstruction sourceTokenKey sourceMint
            destinationTokenKey destinationMint transferAuthority tokenProgramId
            feeTokenAccount info amountIn expectAmountOut minimumAmountOut
            programId = .ok i →
          i.keys = [ ⟨sourceTokenKey, false, true⟩,
                     ⟨destinationTokenKey, false, true⟩,
                     ⟨transferAuthority, true, false⟩,
                     ⟨tokenProgramId, false, false⟩,
                     ⟨feeTokenAccount, false, true⟩ ] ++ info.toKeys sourceMint) ∧
    (∀ (sourceTokenKey sourceMint destinationTokenKey destinationMint
          transferAuthority tokenProgramId feeTokenAccount programId : PublicKey)
        (info : RaydiumAmmInfo) (amountIn expectAmountOut minimumAmountOut : Nat)
        (i : TransactionInstruction),
        OneSolProtocol.makeSwapByRaydiumSwapInstruction sourceTokenKey sourceMint
            destinationTokenKey destinationMint transferAuthority tokenProgramId
            feeTokenAccount info amountIn expectAmountOut minimumAmountOut
            programId = .ok i →
          i.keys = [ ⟨sourceTokenKey, false, true⟩,
                     ⟨destinationTokenKey, false, true⟩,
                     ⟨transferAuthority, true, false⟩,
                     ⟨tokenProgramId, false, false⟩,
                     ⟨feeTokenAccount, false, true⟩ ] ++ info.toKeys) ∧
    (∀ (sourceTokenKey sourceMintKey destinationTokenKey destinationMintKey
          feeTokenAccount transferAuthority tokenProgramId programId : PublicKey)
        (info : SerumDexMarketInfo) (amountIn expectAmountOut minimumAmountOut : Nat)
        (i : TransactionInstruction),
        OneSolProtocol.makeSwapBySerumDexInstruction sourceTokenKey sourceMintKey
            destinationTokenKey destinationMintKey feeTokenAccount transferAuthority
            tokenProgramId info amountIn expectAmountOut minimumAmountOut
            programId = .ok i →
          i.keys = [ ⟨sourceTokenKey, false, true⟩,
                     ⟨destinationTokenKey, false, true⟩,
                     ⟨transferAuthority, true, false⟩,
                     ⟨tokenProgramId, false, false⟩,
                     ⟨feeTokenAccount, false, true⟩ ] ++ info.toKeys) := by
  refine ⟨?_, ?_, ?_, ?_⟩ <;>
  · intro A B C D E F G P info a e m i h
    first
      | unfold OneSolProtocol.makeSwapByTokenSwapInstruction at h
      | unfold OneSolProtocol.makeSwapBySaberStableSwapInstruction at h
      | unfold OneSolProtocol.makeSwapByRaydiumSwapInstruction at h
      | unfold OneSolProtocol.makeSwapBySerumDexInstruction at h
    split at h <;> cases h <;> rfl

theorem fullSwap_keyLists_witness :
    ∃ i, OneSolProtocol.makeSwapByTokenSwapInstruction (.raw 1) (.raw 2) (.raw 3)
        (.raw 4) (.raw 5) (.raw 6) (.raw 7)
        ⟨.raw 10, .raw 11, .raw 12, .raw 13, .raw 14, .raw 15, .raw 16, .raw 17,
         .raw 18⟩ 1 2 3 (.raw 8) = .ok i ∧
      i.keys = [ ⟨.raw 1, false, true⟩,
                 ⟨.raw 3, false, true⟩,
                 ⟨.raw 5, true, false⟩,
                 ⟨.raw 6, false, false⟩,
                 ⟨.raw 7, false, true⟩ ]
        ++ TokenSwapInfo.toKeys ⟨.raw 10, .raw 11, .raw 12, .raw 13, .raw 14,
             .raw 15, .raw 16, .raw 17, .raw 18⟩ := by
  obtain ⟨i, hi⟩ : ∃ i, OneSolProtocol.makeSwapByTokenSwapInstruction (.raw 1)
      (.raw 2) (.raw 3) (.raw 4) (.raw 5) (.raw 6) (.raw 7)
      ⟨.raw 10, .raw 11, .raw 12, .raw 13, .raw 14, .raw 15, .raw 16, .raw 17,
       .raw 18⟩ 1 2 3 (.raw 8) = .ok i := ⟨_, rfl⟩
  exact ⟨i, hi, fullSwap_keyLists.1 _ _ _ _ _ _ _ _ _ _ _ _ i hi⟩

/-- C4: every instruction-construction helper writes its fixed discriminant
as the first data byte — 3/4/6/9 for the token-swap, order-book, stable-swap
and other-AMM full swaps, 10/11 for create/setup swap-info, 12/14/16/18 for
the swap-in variants, 13/15/17/19 for the swap-out variants, 3 with mint
validation and 1 in the earlier `index.ts` revisions — and every
discriminant used across all file revisions lies between 0 and 19. -/
theorem instruction_discriminants :
    (∀ (a b c d e f g p : PublicKey) (info : TokenSwapInfo) (x y z : Nat)
        (i : TransactionInstruction),
        OneSolProtocol.makeSwapByTokenSwapInstruction a b c d e f g info x y z p
          = .ok i → i.data.head? = some 3) ∧
    (∀ (a b c d e f g p : PublicKey) (info : SerumDexMarketInfo) (x y z : Nat)
        (i : TransactionInstruction),
        OneSolProtocol.makeSwapBySerumDexInstruction a b c d e f g info x y z p
          = .ok i → i.data.head? = some 4) ∧
    (∀ (a b c d e f g p : PublicKey) (info : SaberStableSwapInfo) (x y z : Nat)
        (i : TransactionInstruction),
        OneSolProtocol.makeSwapBySaberStableSwapInstruction a b c d e f g info x y z p
          = .ok i → i.data.head? = some 6) ∧
    (∀ (a b c d e f g p : PublicKey) (info : RaydiumAmmInfo) (x y z : Nat)
        (i : TransactionInstruction),
        OneSolProtocol.makeSwapByRaydiumSwapInstruction a b c d e f g info x y z p
          = .ok i → i.data.head? = some 9) ∧
    (∀ a b c : PublicKey,
        (OneSolProtocol.createSwapInfoInstruction a b c).data.head? = some 10) ∧
    (∀ a b c : PublicKey,
        (OneSolProtocol.setupSwapInfoInstruction a b c).data.head? = some 11) ∧
    (∀ (a b c d e f g p : PublicKey) (info : TokenSwapInfo) (x : Nat)
        (i : TransactionInstruction),
        OneSolProtocol.makeSwapInByTokenSwapInstruction a b c d e f g info x p
          = .ok i → i.data.head? = some 12) ∧
    (∀ (a b c d e f g h p : PublicKey) (info : TokenSwapInfo) (x y : Nat)
        (i : TransactionInstruction),
        OneSolProtocol.makeSwapOutByTokenSwapInstruction a b c d e f g h info x y p
          = .ok i → i.data.head? = some 13) ∧
    (∀ (a b c d e f g p : PublicKey) (info : SerumDexMarketInfo) (x : Nat)
        (i : TransactionInstruction),
        OneSolProtocol.makeSwapInBySerumDexInstruction a b c d e f g info x p
          = .ok i → i.data.head? = some 14) ∧
    (∀ (a b c d e f g h p : PublicKey) (info : SerumDexMarketInfo) (x y : Nat)
        (i : TransactionInstruction),
        OneSolProtocol.makeSwapOutBySerumDexInstruction a b c d e f g h info x y p
          = .ok i → i.data.head? = some 15) ∧
    (∀ (a b c d e f g p : PublicKey) (info : SaberStableSwapInfo) (x : Nat)
        (i : TransactionInstruction),
        OneSolProtocol.makeSwapInBySaberStableSwapInstruction a b c d e f g info x p
          = .ok i → i.data.head? = some 16) ∧
    (∀ (a b c d e f g h p : PublicKey) (info : SaberStableSwapInfo) (x y : Nat)
        (i : TransactionInstruction),
        OneSolProtocol.makeSwapOutBySaberStableSwapInstruction a b c d e f g h info x y p
          = .ok i → i.data.head? = some 17) ∧
    (∀ (a b c d e f g p : PublicKey) (info : RaydiumAmmInfo) (x : Nat)
        (i : TransactionInstruction),
        OneSolProtocol.makeSwapInByRaydiumSwapInstruction a b c d e f g info x p
          = .ok i → i.data.head? = some 18) ∧
    (∀ (a b c d e f g h p : PublicKey) (info : RaydiumAmmInfo) (x y : Nat)
        (i : TransactionInstruction),
        OneSolProtocol.makeSwapOutByRaydiumSwapInstruction a b c d e f g h info x y p
          = .ok i → i.data.head? = some 19) ∧
    (∀ (amm : IndexV2.AmmInfo) (a b c d e f : PublicKey)
        (info : IndexV2.TokenSwapInfo) (x y z : Nat) (u : Bool)
        (i : TransactionInstruction),
        IndexV2.makeSwapByTokenSwapInstruction amm a b c d e f info x y z u
          = .ok i → i.data.head? = some 3) ∧
    (∀ (x y dc : Nat) (l : List Nat),
        IndexV1.swapInstructionData x y dc = .ok l → l.head? = some 1) ∧
    (∀ d ∈ allRevisionDiscriminants, d ≤ 19) := by
  refine ⟨?_, ?_, ?_, ?_, fun _ _ _ => rfl, fun _ _ _ => rfl,
    ?_, ?_, ?_, ?_, ?_, ?_, ?_, ?_, ?_, ?_, ?_⟩
  · intro a b c d e f g p info x y z i h
    unfold OneSolProtocol.makeSwapByTokenSwapInstruction at h
    split at h <;> cases h <;> rfl
  · intro a b c d e f g p info x y z i h
    unfold OneSolProtocol.makeSwapBySerumDexInstruction at h
    split at h <;> cases h <;> rfl
  · intro a b c d e f g p info x y z i h
    unfold OneSolProtocol.makeSwapBySaberStableSwapInstruction at h
    split at h <;> cases h <;> rfl
  · intro a b c d e f g p info x y z i h
    unfold OneSolProtocol.makeSwapByRaydiumSwapInstruction at h
    split at h <;> cases h <;> rfl
  · intro a b c d e f g p info x i h
    unfold OneSolProtocol.makeSwapInByTokenSwapInstruction at h
    split at h <;> cases h <;> rfl
  · intro a b c d e f g h2 p info x y i h
    unfold OneSolProtocol.makeSwapOutByTokenSwapInstruction at h
    split at h <;> cases h <;> rfl
  · intro a b c d e f g p info x i h
    unfold OneSolProtocol.makeSwapInBySerumDexInstruction at h
    split at h <;> cases h <;> rfl
  · intro a b c d e f g h2 p info x y i h
    unfold OneSolProtocol.makeSwapOutBySerumDexInstruction at h
    split at h <;> cases h <;> rfl
  · intro a b c d e f g p info x i h
    unfold OneSolProtocol.makeSwapInBySaberStableSwapInstruction at h
    split at h <;> cases h <;> rfl
  · intro a b c d e f g h2 p info x y i h
    unfold OneSolProtocol.makeSwapOutBySaberStableSwapInstruction at h
    split at h <;> cases h <;> rfl
  · intro a b c d e f g p info x i h
    unfold OneSolProtocol.makeSwapInByRaydiumSwapInstruction at h
    split at h <;> cases h <;> rfl
  · intro a b c d e f g h2 p info x y i h
    unfold OneSolProtocol.makeSwapOutByRaydiumSwapInstruction at h
    split at h <;> cases h <;> rfl
  · intro amm a b c d e f info x y z u i h
    unfold IndexV2.makeSwapByTokenSwapInstruction at h
    split at h
    · cases h
    · split at h <;> cases h <;> rfl
  · intro x y dc l h
    unfold IndexV1.swapInstructionData at h
    split at h <;> cases h <;> rfl
  · intro d hd
    fin_cases hd <;> norm_num

theorem instruction_discriminants_witness :
    ∃ i, OneSolProtocol.makeSwapByTokenSwapInstruction (.raw 1) (.raw 2) (.raw 3)
        (.raw 4) (.raw 5) (.raw 6) (.raw 7)
        ⟨.raw 10, .raw 11, .raw 12, .raw 13, .raw 14, .raw 15, .raw 16, .raw 17,
         .raw 18⟩ 1 2 3 (.raw 8) = .ok i ∧
      i.data.head? = some 3 := by
  obtain ⟨i, hi⟩ : ∃ i, OneSolProtocol.makeSwapByTokenSwapInstruction (.raw 1)
      (.raw 2) (.raw 3) (.raw 4) (.raw 5) (.raw 6) (.raw 7)
      ⟨.raw 10, .raw 11, .raw 12, .raw 13, .raw 14, .raw 15, .raw 16, .raw 17,
       .raw 18⟩ 1 2 3 (.raw 8) = .ok i := ⟨_, rfl⟩
  exact ⟨i, hi, instruction_discriminants.1 _ _ _ _ _ _ _ _ _ _ _ _ i hi⟩

/-- C7: when the account loads and decodes, `loadTokenSwapInfo` throws
`Invalid token swap state` exactly if the decoded `isInitialized` flag is
falsy, and otherwise returns the `TokenSwapInfo` assembled from the decoded
pool mint, fee account, token accounts, mints and the program-derived
authority. -/
theorem loadTokenSwapInfo_spec :
    ∀ (accountInfo : Option (AccountInfo TokenSwapDecoded))
      (address programId : PublicKey) (hostFeeAccount : Option PublicKey)
      (d : TokenSwapDecoded),
      loadAccount accountInfo programId = .ok d →
      (d.isInitialized = 0 →
        loadTokenSwapInfo accountInfo address programId hostFeeAccount =
          .error "Invalid token swap state") ∧
      (d.isInitialized ≠ 0 →
        loadTokenSwapInfo accountInfo address programId hostFeeAccount =
          .ok { programId := programId,
                swapInfo := address,
                authority := .programAddress address d.nonce programId,
                tokenAccountA := d.tokenAccountA,
                tokenAccountB := d.tokenAccountB,
                mintA := d.mintA,
                mintB := d.mintB,
                poolMint := d.tokenPool,
                feeAccount := d.feeAccount }) := by
  intro accountInfo address programId hostFeeAccount d h
  constructor <;> intro hinit <;> simp [loadTokenSwapInfo, h, hinit]

theorem loadTokenSwapInfo_spec_witness :
    loadTokenSwapInfo
        (some ⟨.raw 2, ⟨1, 7, .raw 20, .raw 21, .raw 22, .raw 23, .raw 24, .raw 25⟩⟩)
        (.raw 30) (.raw 2) none =
      .ok ⟨.raw 2, .raw 30, .programAddress (.raw 30) 7 (.raw 2),
           .raw 22, .raw 23, .raw 24, .raw 25, .raw 20, .raw 21⟩ ∧
    loadTokenSwapInfo
        (some ⟨.raw 2, ⟨0, 7, .raw 20, .raw 21, .raw 22, .raw 23, .raw 24, .raw 25⟩⟩)
        (.raw 30) (.raw 2) none =
      .error "Invalid token swap state" :=
  ⟨(loadTokenSwapInfo_spec
      (some ⟨.raw 2, ⟨1, 7, .raw 20, .raw 21, .raw 22, .raw 23, .raw 24, .raw 25⟩⟩)
      (.raw 30) (.raw 2) none
      ⟨1, 7, .raw 20, .raw 21, .raw 22, .raw 23, .raw 24, .raw 25⟩ rfl).2
    (by decide),
   (loadTokenSwapInfo_spec
      (some ⟨.raw 2, ⟨0, 7, .raw 20, .raw 21, .raw 22, .raw 23, .raw 24, .raw 25⟩⟩)
      (.raw 30) (.raw 2) none
      ⟨0, 7, .raw 20, .raw 21, .raw 22, .raw 23, .raw 24, .raw 25⟩ rfl).1 rfl⟩

/-- C8: the mint-validating revision of `makeSwapByTokenSwapInstruction`
throws an error naming the `ammInfo` public key whenever the source and
destination mints match neither orientation of the `AmmInfo` mint pair, and
builds the instruction without throwing whenever they match in either
orientation (for in-range 64-bit amounts). -/
theorem indexV2_makeSwap_mint_validation :
    ∀ (ammInfo : IndexV2.AmmInfo)
      (sourceTokenKey sourceMint destinationTokenKey destinationMint
        transferAuthority tokenProgramId : PublicKey)
      (info : IndexV2.TokenSwapInfo)
      (amountIn expectAmountOut minimumAmountOut : Nat) (useFull : Bool),
      amountIn < 2 ^ 64 → expectAmountOut < 2 ^ 64 → minimumAmountOut < 2 ^ 64 →
      (¬ ((sourceMint = ammInfo.tokenMintA ∧ destinationMint = ammInfo.tokenMintB) ∨
          (sourceMint = ammInfo.tokenMintB ∧ destinationMint = ammInfo.tokenMintA)) →
        IndexV2.makeSwapByTokenSwapInstruction ammInfo sourceTokenKey sourceMint
            destinationTokenKey destinationMint transferAuthority tokenProgramId
            info amountIn expectAmountOut minimumAmountOut useFull =
          .error ("ammInfo(" ++ pkStr ammInfo.pubkey ++ ") error")) ∧
      (((sourceMint = ammInfo.tokenMintA ∧ destinationMint = ammInfo.tokenMintB) ∨
        (sourceMint = ammInfo.tokenMintB ∧ destinationMint = ammInfo.tokenMintA)) →
        ∃ i, IndexV2.makeSwapByTokenSwapInstruction ammInfo sourceTokenKey sourceMint
            destinationTokenKey destinationMint transferAuthority tokenProgramId
            info amountIn expectAmountOut minimumAmountOut useFull = .ok i) := by
  intro ammInfo sourceTokenKey sourceMint destinationTokenKey destinationMint
    transferAuthority tokenProgramId info amountIn expectAmountOut
    minimumAmountOut useFull ha he hm
  constructor
  · intro hmis
    rw [IndexV2.makeSwapByTokenSwapInstruction, if_pos hmis]
  · intro hmatch
    rw [IndexV2.makeSwapByTokenSwapInstruction, if_neg (not_not_intro hmatch),
      toBuffer_eq amountIn ha, toBuffer_eq expectAmountOut he,
      toBuffer_eq minimumAmountOut hm]
    exact ⟨_, rfl⟩

theorem indexV2_makeSwap_mint_validation_witness :
    IndexV2.makeSwapByTokenSwapInstruction
        ⟨.raw 1, .raw 2, .raw 3, .raw 4, .raw 5, .raw 40, .raw 41⟩
        (.raw 50) (.raw 60) (.raw 51) (.raw 61) (.raw 52) (.raw 53)
        ⟨.raw 10, .raw 11, .raw 12, .raw 13, .raw 14, .raw 15, .raw 16, .raw 17,
         .raw 18, none⟩ 1 2 3 false =
      .error ("ammInfo(" ++ pkStr (.raw 1) ++ ") error") ∧
    ∃ i, IndexV2.makeSwapByTokenSwapInstruction
        ⟨.raw 1, .raw 2, .raw 3, .raw 4, .raw 5, .raw 40, .raw 41⟩
        (.raw 50) (.raw 40) (.raw 51) (.raw 41) (.raw 52) (.raw 53)
        ⟨.raw 10, .raw 11, .raw 12, .raw 13, .raw 14, .raw 15, .raw 16, .raw 17,
         .raw 18, none⟩ 1 2 3 false = .ok i :=
  ⟨(indexV2_makeSwap_mint_validation
      ⟨.raw 1, .raw 2, .raw 3, .raw 4, .raw 5, .raw 40, .raw 41⟩
      (.raw 50) (.raw 60) (.raw 51) (.raw 61) (.raw 52) (.raw 53)
      ⟨.raw 10, .raw 11, .raw 12, .raw 13, .raw 14, .raw 15, .raw 16, .raw 17,
       .raw 18, none⟩ 1 2 3 false (by norm_num) (by norm_num) (by norm_num)).1
    (by decide),
   (indexV2_makeSwap_mint_validation
      ⟨.raw 1, .raw 2, .raw 3, .raw 4, .raw 5, .raw 40, .raw 41⟩
      (.raw 50) (.raw 40) (.raw 51) (.raw 41) (.raw 52) (.raw 53)
      ⟨.raw 10, .raw 11, .raw 12, .raw 13, .raw 14, .raw 15, .raw 16, .raw 17,
       .raw 18, none⟩ 1 2 3 false (by norm_num) (by norm_num) (by norm_num)).2
    (by decide)⟩

/-- C9: when the account loads and decodes, `loadSaberStableSwap` throws
`Invalid token swap state` exactly if the decoded `isInitialized` flag is
falsy or the decoded `isPaused` flag is truthy — in particular a paused but
initialized stable-swap account is rejected. -/
theorem loadSaberStableSwap_spec :
    ∀ (accountInfo : Option (AccountInfo StableSwapDecoded))
      (address programId : PublicKey) (d : StableSwapDecoded),
      loadAccount accountInfo programId = .ok d →
      (loadSaberStableSwap accountInfo address programId =
          .error "Invalid token swap state" ↔
        (d.isInitialized = 0 ∨ d.isPaused ≠ 0)) := by
  intro accountInfo address programId d h
  by_cases hc : d.isInitialized = 0 ∨ d.isPaused ≠ 0 <;>
    simp [loadSaberStableSwap, h, hc]

theorem loadSaberStableSwap_spec_witness :
    loadSaberStableSwap
        (some ⟨.raw 2, ⟨1, 1, 7, .raw 20, .raw 21, .raw 22, .raw 23, .raw 24,
          .raw 25⟩⟩) (.raw 30) (.raw 2) =
      .error "Invalid token swap state" :=
  (loadSaberStableSwap_spec
      (some ⟨.raw 2, ⟨1, 1, 7, .raw 20, .raw 21, .raw 22, .raw 23, .raw 24,
        .raw 25⟩⟩) (.raw 30) (.raw 2)
      ⟨1, 1, 7, .raw 20, .raw 21, .raw 22, .raw 23, .raw 24, .raw 25⟩ rfl).mpr
    (Or.inr (by decide))

end OneSol
